import Mathlib

/-!
Verification of the DeepSeek book-generation service.

The definitions below are a shallow embedding of the JavaScript sources:
- `src/index.js` (first variant, lines 27-158): `askDeepSeek`'s response
  processing (the "Structured Response Extractor"), `generateBook`
  (outline planning, skeleton, chapter loop, persistence) and the
  `/generate` route defaults;
- `src/index.js` (second variant, lines 185-224): the retrying
  `askDeepSeek` (the "Completion Client" retry loop);
- `src/unnamed/part_001` (lines 23-24, 111): the token-budget clamp and
  the per-page token budget used for chapter expansion.

Strings are modelled as `List Char`; backend responses are supplied as a
script (a list of call outcomes), so every network-dependent function
becomes a pure function of that script.
-/

namespace DeepSeekGen

/-- Characters matched by JavaScript's regex `\s` and removed by
`String.prototype.trim` (ECMAScript WhiteSpace ∪ LineTerminator). -/
def isJsWs (c : Char) : Bool :=
  let n := c.toNat
  n = 0x20 || n = 0x09 || n = 0x0a || n = 0x0b || n = 0x0c || n = 0x0d ||
  n = 0xa0 || n = 0x1680 || (0x2000 ≤ n && n ≤ 0x200a) ||
  n = 0x2028 || n = 0x2029 || n = 0x202f || n = 0x205f || n = 0x3000 || n = 0xfeff

/-- JavaScript `String.prototype.trim` (used as `.trim()` throughout the source). -/
def jsTrimList (cs : List Char) : List Char :=
  ((cs.dropWhile isJsWs).reverse.dropWhile isJsWs).reverse

/-- Whitespace accepted between tokens by `JSON.parse` (space, tab, LF, CR). -/
def isJsonWs (c : Char) : Bool :=
  c = ' ' || c = '\t' || c = '\n' || c = '\r'

def skipJsonWs (cs : List Char) : List Char := cs.dropWhile isJsonWs

/-- The closing fence of a code block: newline followed by three backticks. -/
def fenceClose : List Char := "\n```".toList

def endsWithNlFence (cs : List Char) : Bool :=
  decide (cs.reverse.take 4 = fenceClose.reverse)

/-- The part of the fence regex `^```(?:json)?\s*\n([\s\S]*?)\n```$` after the
opening backticks and optional tag: consume `\s*\n`, then capture everything up
to the final `\n```` ` at end of string (the lazy capture combined with the `$`
anchor forces the match of the closing fence to be the string's final four
characters).  The regex engine backtracks over the `\s*` split; all successful
splits agree on whether the whole regex matches and their captures differ only
in leading whitespace characters, so committing to the first `\n` of the
whitespace run is observationally equivalent once the caller trims the capture
(`codeBlockMatch[1].trim()`, src/index.js line 51). -/
def fenceTail : List Char → Option (List Char)
  | [] => none
  | c :: rest =>
    if c = '\n' then
      if endsWithNlFence rest then some (rest.take (rest.length - 4)) else none
    else if isJsWs c then fenceTail rest
    else none

/-- Case-insensitive test for the optional `json` tag after the opening fence. -/
def startsWithJsonCI (cs : List Char) : Bool :=
  decide ((cs.take 4).map Char.toLower = "json".toList)

/-- The fence-stripping step of `askDeepSeek`
(`raw.match(/^```(?:json)?\s*\n([\s\S]*?)\n```$/i)`, src/index.js line 50):
returns the (untrimmed) capture group when the regex matches. -/
def codeBlockStrip (cs : List Char) : Option (List Char) :=
  if cs.take 3 = "```".toList then
    if startsWithJsonCI (cs.drop 3) then
      match fenceTail (cs.drop 7) with
      | some interior => some interior
      | none => fenceTail (cs.drop 3)
    else fenceTail (cs.drop 3)
  else none

/-- Characters up to (excluding) the first occurrence of `close`, or `none`
if `close` never occurs (the lazy `.*?` of the span regex). -/
def spanTo (close : Char) : List Char → Option (List Char)
  | [] => none
  | c :: rest =>
    if c = close then some []
    else (spanTo close rest).map (c :: ·)

/-- The bracketed-span search `raw.match(/(\[.*?\]|\{.*?\})/s)`
(src/index.js line 59): the first position carrying `[` with a later `]`,
or `{` with a later `}`, matched lazily to the nearest closer. -/
def firstSpan : List Char → Option (List Char)
  | [] => none
  | c :: rest =>
    if c = '[' then
      match spanTo ']' rest with
      | some inner => some ('[' :: (inner ++ [']']))
      | none => firstSpan rest
    else if c = '{' then
      match spanTo '}' rest with
      | some inner => some ('{' :: (inner ++ ['}']))
      | none => firstSpan rest
    else firstSpan rest

/-- JSON values as produced by `JSON.parse`.  Number literals are kept as
their source lexeme: every number in this development is a small integer
literal, for which the lexeme determines the JavaScript number exactly. -/
inductive Json where
  | null
  | bool (b : Bool)
  | num (lit : String)
  | str (s : String)
  | arr (elems : List Json)
  | obj (members : List (String × Json))
deriving Repr

def hexVal (c : Char) : Option Nat :=
  if '0' ≤ c ∧ c ≤ '9' then some (c.toNat - 48)
  else if 'a' ≤ c ∧ c ≤ 'f' then some (c.toNat - 87)
  else if 'A' ≤ c ∧ c ≤ 'F' then some (c.toNat - 55)
  else none

/-- Body of a JSON string literal, after the opening quote.  `acc` collects
the decoded characters in reverse. -/
def parseStringBody (acc : List Char) : List Char → Option (String × List Char)
  | [] => none
  | '"' :: rest => some (String.mk acc.reverse, rest)
  | '\\' :: rest =>
    match rest with
    | [] => none
    | e :: rest' =>
      if e = '"' then parseStringBody ('"' :: acc) rest'
      else if e = '\\' then parseStringBody ('\\' :: acc) rest'
      else if e = '/' then parseStringBody ('/' :: acc) rest'
      else if e = 'b' then parseStringBody ('\x08' :: acc) rest'
      else if e = 'f' then parseStringBody ('\x0c' :: acc) rest'
      else if e = 'n' then parseStringBody ('\n' :: acc) rest'
      else if e = 'r' then parseStringBody ('\r' :: acc) rest'
      else if e = 't' then parseStringBody ('\t' :: acc) rest'
      else if e = 'u' then
        match rest' with
        | h1 :: h2 :: h3 :: h4 :: rest2 =>
          match hexVal h1, hexVal h2, hexVal h3, hexVal h4 with
          | some a, some b, some c, some d =>
            parseStringBody (Char.ofNat (((a * 16 + b) * 16 + c) * 16 + d) :: acc) rest2
          | _, _, _, _ => none
        | _ => none
      else none
  | c :: rest =>
    if c.toNat < 0x20 then none else parseStringBody (c :: acc) rest

def decDigit (c : Char) : Bool := '0' ≤ c && c ≤ '9'

/-- Optional exponent part of a JSON number; `acc` is the lexeme so far. -/
def parseExp (acc : List Char) (cs : List Char) : Option (String × List Char) :=
  match cs with
  | c :: rest =>
    if c = 'e' ∨ c = 'E' then
      let (sgn, cs2) :=
        match rest with
        | '+' :: r => (['+'], r)
        | '-' :: r => (['-'], r)
        | _ => (([] : List Char), rest)
      let ds := cs2.takeWhile decDigit
      if ds = [] then none
      else some (String.mk (acc ++ c :: (sgn ++ ds)), cs2.dropWhile decDigit)
    else some (String.mk acc, cs)
  | [] => some (String.mk acc, [])

/-- Optional fraction part of a JSON number. -/
def parseFrac (acc : List Char) (cs : List Char) : Option (String × List Char) :=
  match cs with
  | '.' :: rest =>
    let ds := rest.takeWhile decDigit
    if ds = [] then none
    else parseExp (acc ++ '.' :: ds) (rest.dropWhile decDigit)
  | _ => parseExp acc cs

/-- A JSON number per the `JSON.parse` grammar:
`-? (0 | [1-9][0-9]*) (.[0-9]+)? ([eE][+-]?[0-9]+)?`, returned as its lexeme. -/
def parseNum (cs : List Char) : Option (String × List Char) :=
  let (sgn, cs1) :=
    match cs with
    | '-' :: rest => ((['-'] : List Char), rest)
    | _ => (([] : List Char), cs)
  match cs1 with
  | '0' :: rest => parseFrac (sgn ++ ['0']) rest
  | c :: _ =>
    if decDigit c then
      parseFrac (sgn ++ cs1.takeWhile decDigit) (cs1.dropWhile decDigit)
    else none
  | [] => none

mutual

/-- One JSON value (fuel-indexed recursive-descent parser for `JSON.parse`). -/
def parseVal : Nat → List Char → Option (Json × List Char)
  | 0, _ => none
  | fuel + 1, cs =>
    let cs := skipJsonWs cs
    if cs.take 4 = "null".toList then some (.null, cs.drop 4)
    else if cs.take 4 = "true".toList then some (.bool true, cs.drop 4)
    else if cs.take 5 = "false".toList then some (.bool false, cs.drop 5)
    else
      match cs with
      | '"' :: rest =>
        match parseStringBody [] rest with
        | some (s, rest') => some (.str s, rest')
        | none => none
      | '[' :: rest =>
        (match skipJsonWs rest with
         | ']' :: r => some (.arr [], r)
         | rest' =>
           match parseElems fuel rest' with
           | some (xs, r) => some (.arr xs, r)
           | none => none)
      | '{' :: rest =>
        (match skipJsonWs rest with
         | '}' :: r => some (.obj [], r)
         | rest' =>
           match parseMembers fuel rest' with
           | some (kvs, r) => some (.obj kvs, r)
           | none => none)
      | _ =>
        match parseNum cs with
        | some (lit, r) => some (.num lit, r)
        | none => none

/-- One-or-more comma-separated array elements, ending at `]`. -/
def parseElems : Nat → List Char → Option (List Json × List Char)
  | 0, _ => none
  | fuel + 1, cs =>
    match parseVal fuel cs with
    | none => none
    | some (v, rest) =>
      match skipJsonWs rest with
      | ',' :: r =>
        (match parseElems fuel r with
         | some (vs, r') => some (v :: vs, r')
         | none => none)
      | ']' :: r => some ([v], r)
      | _ => none

/-- One-or-more comma-separated object members, ending at `}`. -/
def parseMembers : Nat → List Char → Option (List (String × Json) × List Char)
  | 0, _ => none
  | fuel + 1, cs =>
    match skipJsonWs cs with
    | '"' :: rest =>
      (match parseStringBody [] rest with
       | none => none
       | some (k, rest') =>
         match skipJsonWs rest' with
         | ':' :: r =>
           (match parseVal fuel r with
            | none => none
            | some (v, r2) =>
              match skipJsonWs r2 with
              | ',' :: r3 =>
                (match parseMembers fuel r3 with
                 | some (kvs, r4) => some ((k, v) :: kvs, r4)
                 | none => none)
              | '}' :: r3 => some ([(k, v)], r3)
              | _ => none)
         | _ => none)
    | _ => none

end

/-- `JSON.parse`: a single value, with only whitespace around it.
The fuel `2 * cs.length + 2` dominates the depth of the recursion, which
consumes at least one character every two nested calls. -/
def jsonParse (cs : List Char) : Option Json :=
  match parseVal (2 * cs.length + 2) cs with
  | some (v, rest) => if skipJsonWs rest = [] then some v else none
  | none => none

/-- Result of the extraction logic: either parsed JSON or the cleaned raw
text (the Structured Response Extractor "never fails"). -/
inductive ExtractResult where
  | json (v : Json)
  | str (s : List Char)
deriving Repr

/-- The cleaning prefix of `askDeepSeek`'s response processing
(src/index.js lines 47-51): trim the content, then strip one fenced code
block if present (the capture is trimmed again, line 51). -/
def cleanRaw (cs : List Char) : List Char :=
  match codeBlockStrip (jsTrimList cs) with
  | some interior => jsTrimList interior
  | none => jsTrimList cs

/-- The parsing cascade of `askDeepSeek` (src/index.js lines 53-67):
direct `JSON.parse`, else first bracketed/braced span, else the raw text. -/
def parsePhase (raw : List Char) : ExtractResult :=
  match jsonParse raw with
  | some v => .json v
  | none =>
    match firstSpan raw with
    | some span =>
      match jsonParse span with
      | some v => .json v
      | none => .str raw
    | none => .str raw

/-- The Structured Response Extractor: the response-processing portion of
`askDeepSeek` (src/index.js lines 47-67). -/
def extractStructured (cs : List Char) : ExtractResult :=
  parsePhase (cleanRaw cs)

mutual

/-- JavaScript `ToString` as used by template-literal interpolation, for
parsed-JSON values: strings verbatim, `null`/booleans by name, numbers by
their lexeme (which coincides with JavaScript number display for the
integer literals arising here), arrays via `Array.prototype.toString`
(comma-joined elements, `null` elements displaying as empty), and plain
objects as `[object Object]`. -/
def jsDisplay : Json → String
  | .null => "null"
  | .bool true => "true"
  | .bool false => "false"
  | .num lit => lit
  | .str s => s
  | .arr xs => String.intercalate "," (jsDisplayElems xs)
  | .obj _ => "[object Object]"

/-- Display of array elements for `Array.prototype.toString`. -/
def jsDisplayElems : List Json → List String
  | [] => []
  | .null :: xs => "" :: jsDisplayElems xs
  | x :: xs => jsDisplay x :: jsDisplayElems xs

end

/-- The value of a duplicate-keyed object member is the last one, as in
`JSON.parse`. -/
def lookupLast (kvs : List (String × Json)) (k : String) : Option Json :=
  match kvs with
  | [] => none
  | (k1, v) :: rest =>
    match lookupLast rest k with
    | some w => some w
    | none => if k1 = k then some v else none

/-- JavaScript property access `ch.k` on a parsed-JSON value: a TypeError
on `null`, the member (or `undefined`, modelled as `none`) on objects, and
`undefined` on other primitives and arrays (`title`, `pages`,
`description` are not built-in properties of strings, numbers or arrays). -/
def jsGetField : Json → String → Except String (Option Json)
  | .null, k => .error ("TypeError: Cannot read properties of null (reading " ++ k ++ ")")
  | .obj kvs, k => .ok (lookupLast kvs k)
  | _, _ => .ok none

/-- Whether the mantissa of a number lexeme is zero (so that the
JavaScript number it denotes is falsy). -/
def numLexemeIsZero (lit : String) : Bool :=
  ((lit.toList.takeWhile fun c => c ≠ 'e' ∧ c ≠ 'E').filter decDigit).all (· = '0')

/-- JavaScript falsiness of a parsed-JSON value (`!ch.description`,
src/index.js line 109): `null`, `false`, the empty string and zero are
falsy; every object and array is truthy. -/
def jsFalsy : Json → Bool
  | .null => true
  | .bool b => !b
  | .str s => decide (s = "")
  | .num lit => numLexemeIsZero lit
  | .arr _ => false
  | .obj _ => false

/-- Falsiness of a property-access result (`undefined` is falsy). -/
def jsFalsyOpt : Option Json → Bool
  | none => true
  | some v => jsFalsy v

/-- Template interpolation of a property-access result
(`undefined` displays as the string `undefined`). -/
def renderOpt : Option Json → String
  | none => "undefined"
  | some v => jsDisplay v

/-- Template interpolation of an `askDeepSeek` result: raw text verbatim,
parsed JSON through JavaScript `ToString`. -/
def renderExtract : ExtractResult → String
  | .json v => jsDisplay v
  | .str s => String.mk s

/-- One backend call outcome: the completion body, or a thrown transport
error.  A whole run is driven by a script of such outcomes, consumed one
per `askDeepSeek` call. -/
abbrev BackendResp := Except String String

/-- Consume the next scripted call outcome; a thrown error propagates.
An exhausted script is treated as one more failed call (a modelling
artifact only: theorems about complete runs supply enough outcomes). -/
def takeCall : List BackendResp → Except String (String × List BackendResp)
  | [] => .error "backend call failed"
  | .error e :: _ => .error e
  | .ok s :: rest => .ok (s, rest)

/-- `Array.isArray` applied to an `askDeepSeek` result, keeping the
elements when it is an array. -/
def isArrayResult : ExtractResult → Option (List Json)
  | .json (.arr xs) => some xs
  | _ => none

/-- The outline step of `generateBook` (src/index.js lines 80-91): one
table-of-contents request; if the extracted result is not an array, exactly
one corrective follow-up request; if still not an array, the thrown
planning error. -/
def planOutlineRun (script : List BackendResp) :
    Except String (List Json × List BackendResp) :=
  match takeCall script with
  | .error e => .error e
  | .ok (r1, rest1) =>
    match isArrayResult (extractStructured r1.toList) with
    | some xs => .ok (xs, rest1)
    | none =>
      match takeCall rest1 with
      | .error e => .error e
      | .ok (r2, rest2) =>
        match isArrayResult (extractStructured r2.toList) with
        | some ys => .ok (ys, rest2)
        | none => .error "Could not obtain valid TOC array from DeepSeek"

/-- One rendered table-of-contents line
(`${idx + 1}. ${ch.title} (${ch.pages} pp.)\n`, src/index.js line 98). -/
def tocLine (idx : Nat) (ch : Json) : Except String String :=
  match jsGetField ch "title" with
  | .error e => .error e
  | .ok t =>
    match jsGetField ch "pages" with
    | .error e => .error e
    | .ok p =>
      .ok (toString (idx + 1) ++ ". " ++ renderOpt t ++ " (" ++ renderOpt p ++ " pp.)\n")

/-- The rendered table-of-contents lines, 1-indexed in planner order. -/
def tocLines (idx : Nat) (toc : List Json) : Except String String :=
  match toc with
  | [] => .ok ""
  | ch :: rest =>
    match tocLine idx ch with
    | .error e => .error e
    | .ok line =>
      match tocLines (idx + 1) rest with
      | .error e => .error e
      | .ok s => .ok (line ++ s)

/-- The markdown skeleton built before the chapter loop
(src/index.js lines 96-100): title line, banner, table of contents,
separator. -/
def buildSkeleton (keywords : String) (toc : List Json) : Except String String :=
  match tocLines 0 toc with
  | .error e => .error e
  | .ok ls =>
    .ok ("# " ++ keywords ++ "\n\nGenerated automatically with DeepSeek.\n\n## Table of Contents\n\n"
         ++ ls ++ "\n---\n\n")

/-- The per-chapter data gathered by one iteration of the chapter loop
(src/index.js lines 105-124): the description (the existing truthy field,
else the result of one backfill request), the expanded chapter text, and
the title as re-read at line 124. -/
def chapterData (ch : Json) (script : List BackendResp) :
    Except String ((Option Json × ExtractResult × ExtractResult) × List BackendResp) :=
  match jsGetField ch "description" with
  | .error e => .error e
  | .ok descField =>
    match
      (if jsFalsyOpt descField then
        match takeCall script with
        | .error e => .error e
        | .ok (c, rest) => .ok (extractStructured c.toList, rest)
      else
        .ok (ExtractResult.json (descField.getD .null), script) :
        Except String (ExtractResult × List BackendResp)) with
    | .error e => .error e
    | .ok (desc, script1) =>
      match takeCall script1 with
      | .error e => .error e
      | .ok (c, script2) =>
        match jsGetField ch "title" with
        | .error e => .error e
        | .ok t => .ok ((t, desc, extractStructured c.toList), script2)

/-- The markdown block one chapter contributes
(`# ${ch.title}\n\n> ${ch.description}\n\n${chapterText}\n\n---\n\n`,
src/index.js line 124). -/
def chapterBlock (d : Option Json × ExtractResult × ExtractResult) : String :=
  "# " ++ renderOpt d.1 ++ "\n\n> " ++ renderExtract d.2.1 ++ "\n\n"
    ++ renderExtract d.2.2 ++ "\n\n---\n\n"

/-- The chapter loop (src/index.js lines 105-125), appending each block to
the accumulated markdown. -/
def chapterLoop (toc : List Json) (script : List BackendResp) (acc : String) :
    Except String (String × List BackendResp) :=
  match toc with
  | [] => .ok (acc, script)
  | ch :: chs =>
    match chapterData ch script with
    | .error e => .error e
    | .ok (d, rest) => chapterLoop chs rest (acc ++ chapterBlock d)

/-- The chapter data of a whole run, without any document building: used
to state that the assembled document is a function of exactly this data. -/
def collectChapterData (toc : List Json) (script : List BackendResp) :
    Except String (List (Option Json × ExtractResult × ExtractResult) × List BackendResp) :=
  match toc with
  | [] => .ok ([], script)
  | ch :: chs =>
    match chapterData ch script with
    | .error e => .error e
    | .ok (d, rest) =>
      match collectChapterData chs rest with
      | .error e => .error e
      | .ok (ds, rest') => .ok (d :: ds, rest')

/-- Pure concatenation of chapter blocks (the chapter part of the
Document Assembler). -/
def renderChapterBlocks : List (Option Json × ExtractResult × ExtractResult) → String
  | [] => ""
  | d :: ds => chapterBlock d ++ renderChapterBlocks ds

/-- The part of `generateBook` after the outline (src/index.js lines
96-128): build the skeleton, run the chapter loop, persist on success.
Returns the final stored value together with the result; the store is
written only by the final `redis.set` (line 127). -/
def buildBook (keywords : String) (toc : List Json) (script : List BackendResp)
    (store0 : Option String) : Option String × Except String String :=
  match buildSkeleton keywords toc with
  | .error e => (store0, .error e)
  | .ok skel =>
    match chapterLoop toc script skel with
    | .error e => (store0, .error e)
    | .ok (bookMarkdown, _) => (some bookMarkdown, .ok bookMarkdown)

/-- `generateBook` (src/index.js lines 71-129) as a function of the
keywords, the scripted backend outcomes and the prior store contents.
`totalPages` occurs only inside the outline prompt text, which the script
abstracts over, so it does not influence the modelled output. -/
def generateBookRun (keywords : String) (_totalPages : Int)
    (script : List BackendResp) (store0 : Option String) :
    Option String × Except String String :=
  match planOutlineRun script with
  | .error e => (store0, .error e)
  | .ok (toc, rest) => buildBook keywords toc rest store0

/-- Result of the retrying `askDeepSeek` (src/index.js lines 185-224):
a parsed JSON value, a thrown exhaustion error, or the `undefined` the
loop falls through to when `maxRetries = 0`. -/
inductive RetryResult where
  | success (v : Json)
  | failure (msg : String)
  | noResult
deriving Repr

/-- The retry loop of the second `askDeepSeek` variant (src/index.js lines
189-223).  `outcome k` is the joint result of the k-th attempt (the HTTP
round trip and the `JSON.parse` of its body share one `try`): a parsed
value or the caught error's message.  Returns the number of attempts
made, the list of backoff delays slept in milliseconds
(`1000 * 2 ** (attempt - 1)`, line 221), and the final result. -/
def retryGo (maxRetries : Nat) (outcome : Nat → Except String Json) :
    Nat → Nat → Nat × List Nat × RetryResult
  | _, 0 => (0, [], .noResult)
  | attempt, remaining + 1 =>
    match outcome attempt with
    | .ok v => (1, [], .success v)
    | .error _ =>
      if attempt = maxRetries then
        (1, [], .failure ("DeepSeek did not return valid JSON after "
          ++ toString maxRetries ++ " tries"))
      else
        let rest := retryGo maxRetries outcome (attempt + 1) remaining
        (rest.1 + 1, 1000 * 2 ^ (attempt - 1) :: rest.2.1, rest.2.2)

/-- The retrying `askDeepSeek` (src/index.js lines 185-224): attempts run
from 1 while `attempt <= maxRetries` (default 3, configurable). -/
def askDeepSeekRetry (maxRetries : Nat) (outcome : Nat → Except String Json) :
    Nat × List Nat × RetryResult :=
  retryGo maxRetries outcome 1 maxRetries

/-- The token-budget clamp of `askDeepSeek` in src/unnamed/part_001
(line 24): `Math.max(1, Math.min(maxTokens, 8000))`. -/
def clampTokens (t : Int) : Int := max 1 (min t 8000)

/-- The token budget the chapter-expansion call requests from the backend
in the src/unnamed/part_001 pipeline: `ch.pages * 90` (line 111) passed
through the clamp (line 24).  `pages` ranges over the integers a planner
descriptor carries. -/
def expandChapterTokens (pages : Int) : Int := clampTokens (pages * 90)

def isHexDigit (c : Char) : Bool :=
  decDigit c || ('a' ≤ c && c ≤ 'f') || ('A' ≤ c && c ≤ 'F')

def hexDigitVal (c : Char) : Nat :=
  if decDigit c then c.toNat - 48
  else if 'a' ≤ c && c ≤ 'f' then c.toNat - 87
  else c.toNat - 55

def digitsToNat (base : Nat) (val : Char → Nat) (ds : List Char) : Nat :=
  ds.foldl (fun a c => a * base + val c) 0

/-- JavaScript `parseInt(s)` with no radix argument: trim, optional sign,
auto-detected hexadecimal on a `0x`/`0X` prefix, otherwise decimal;
parses the longest digit prefix and is `NaN` (here `none`) when there is
no digit. -/
def jsParseInt (s : String) : Option Int :=
  let cs := jsTrimList s.toList
  let (neg, cs1) :=
    match cs with
    | '-' :: rest => (true, rest)
    | '+' :: rest => (false, rest)
    | _ => (false, cs)
  let mag : Option Nat :=
    match cs1 with
    | '0' :: x :: rest =>
      if x = 'x' ∨ x = 'X' then
        let ds := rest.takeWhile isHexDigit
        if ds = [] then none else some (digitsToNat 16 hexDigitVal ds)
      else
        let ds := ('0' :: x :: rest).takeWhile decDigit
        some (digitsToNat 10 (fun c => c.toNat - 48) ds)
    | c :: _ =>
      if decDigit c then
        some (digitsToNat 10 (fun c => c.toNat - 48) (cs1.takeWhile decDigit))
      else none
    | [] => none
  match mag with
  | none => none
  | some n => some (if neg then -(n : Int) else (n : Int))

/-- `req.query.keywords || 'Artificial Intelligence'` (src/index.js line
134): an absent parameter is `undefined` and the empty string is falsy,
so both fall back to the default topic. -/
def effectiveKeywords (q : Option String) : String :=
  match q with
  | none => "Artificial Intelligence"
  | some s => if s = "" then "Artificial Intelligence" else s

/-- `parseInt(req.query.pages) || 120` (src/index.js line 135): an absent
parameter makes `parseInt` see `undefined` and yield `NaN`, and both `NaN`
and a parsed `0` are falsy, so they fall back to the default budget. -/
def effectiveTotalPages (q : Option String) : Int :=
  match q with
  | none => 120
  | some s =>
    match jsParseInt s with
    | none => 120
    | some n => if n = 0 then 120 else n

/-- The `/generate` route handler (src/index.js lines 133-144): resolve
the defaults and start a run unconditionally; the response mirrors the
run's outcome. -/
def generateHandler (qKeywords qPages : Option String) (script : List BackendResp)
    (store0 : Option String) : Option String × Except String String :=
  generateBookRun (effectiveKeywords qKeywords) (effectiveTotalPages qPages) script store0

/-- The backtick character, named so it can appear in positions where a
character literal is awkward. -/
def btChar : Char := "`".toList.getD 0 ' '

/-- A raw text wrapped in an untagged fenced code block. -/
def fenceWrap (cs : List Char) : List Char :=
  "```\n".toList ++ cs ++ "\n```".toList

/-- A raw text wrapped in a `json`-tagged fenced code block. -/
def fenceWrapJson (cs : List Char) : List Char :=
  "```json\n".toList ++ cs ++ "\n```".toList

/-- Split a character list into its newline-separated lines (the line
decomposition of the assembled markdown document). -/
def splitLinesL : List Char → List (List Char)
  | [] => [[]]
  | c :: rest =>
    if c = '\n' then [] :: splitLinesL rest
    else
      match splitLinesL rest with
      | [] => [[c]]
      | l :: ls => (c :: l) :: ls

/-- The lines of the document's table-of-contents section: the lines
between the `## Table of Contents` marker and the next `---` separator,
blank lines dropped. -/
def tocSectionLines (doc : String) : List (List Char) :=
  ((((splitLinesL doc.toList).dropWhile
        fun l => !(l == "## Table of Contents".toList)).drop 1).takeWhile
      fun l => !(l == "---".toList)).filter
    fun l => !(l == ([] : List Char))

/-- How many lines of the document are a level-1 heading `# <t>` for one
of the given titles. -/
def headingCount (doc : String) (titles : List (List Char)) : Nat :=
  ((splitLinesL doc.toList).filter
    fun l => titles.any fun t => l == '#' :: ' ' :: t).length

/-- A planner chapter descriptor with title, description and page count,
as the outline prompt requests it. -/
def chDescriptor (t d p : String) : Json :=
  Json.obj [("title", Json.str t), ("description", Json.str d), ("pages", Json.num p)]

/-! ### Helper lemmas -/

theorem splitLinesL_ne_nil (cs : List Char) : splitLinesL cs ≠ [] := by
  cases cs with
  | nil => simp [splitLinesL]
  | cons c rest =>
    simp only [splitLinesL]
    split
    · exact List.cons_ne_nil _ _
    · cases h : splitLinesL rest <;> simp

theorem splitLinesL_append_newline (xs ys : List Char) :
    splitLinesL (xs ++ '\n' :: ys) = splitLinesL xs ++ splitLinesL ys := by
  induction xs with
  | nil => simp [splitLinesL]
  | cons c rest ih =>
    by_cases hc : c = '\n'
    · subst hc
      simp [splitLinesL, ih]
    · simp only [List.cons_append, splitLinesL, hc, if_false, List.append_eq]
      rw [ih]
      cases h : splitLinesL rest with
      | nil => exact absurd h (splitLinesL_ne_nil rest)
      | cons l ls => simp

theorem splitLinesL_no_newline (xs : List Char) (h : '\n' ∉ xs) : splitLinesL xs = [xs] := by
  induction xs with
  | nil => rfl
  | cons c rest ih =>
    rw [List.mem_cons, not_or] at h
    obtain ⟨h1, h2⟩ := h
    have hc : ¬ c = '\n' := fun e => h1 e.symm
    simp [splitLinesL, hc, ih h2]

theorem splitLinesL_seg (xs ys : List Char) (h : '\n' ∉ xs) :
    splitLinesL (xs ++ '\n' :: ys) = xs :: splitLinesL ys := by
  rw [splitLinesL_append_newline, splitLinesL_no_newline xs h, List.singleton_append]

theorem notMemAppend {α : Type} {c : α} {l1 l2 : List α} (h1 : c ∉ l1) (h2 : c ∉ l2) :
    c ∉ l1 ++ l2 :=
  fun h => (List.mem_append.mp h).elim h1 h2

theorem splitLinesL_double (xs ys : List Char) :
    splitLinesL (xs ++ '\n' :: '\n' :: ys) = splitLinesL xs ++ [] :: splitLinesL ys := by
  rw [splitLinesL_append_newline]
  simp [splitLinesL]

theorem splitLinesL_seg2 (xs ys : List Char) (h : '\n' ∉ xs) :
    splitLinesL (xs ++ '\n' :: '\n' :: ys) = xs :: [] :: splitLinesL ys := by
  rw [splitLinesL_double, splitLinesL_no_newline xs h, List.singleton_append]

theorem splitLinesL_seg_two (a b ys : List Char) (ha : '\n' ∉ a) (hb : '\n' ∉ b) :
    splitLinesL (a ++ (b ++ '\n' :: '\n' :: ys)) = (a ++ b) :: [] :: splitLinesL ys := by
  rw [← List.append_assoc, splitLinesL_seg2 _ _ (notMemAppend ha hb)]

theorem splitLinesL_seg_five1 (a b c d e ys : List Char)
    (ha : '\n' ∉ a) (hb : '\n' ∉ b) (hc : '\n' ∉ c) (hd : '\n' ∉ d) (he : '\n' ∉ e) :
    splitLinesL (a ++ (b ++ (c ++ (d ++ (e ++ '\n' :: ys)))))
      = (a ++ (b ++ (c ++ (d ++ e)))) :: splitLinesL ys := by
  rw [show a ++ (b ++ (c ++ (d ++ (e ++ '\n' :: ys))))
      = (a ++ (b ++ (c ++ (d ++ e)))) ++ '\n' :: ys by simp [List.append_assoc]]
  rw [splitLinesL_seg _ _
    (notMemAppend ha (notMemAppend hb (notMemAppend hc (notMemAppend hd he))))]

theorem splitLinesL_seg_five2 (a b c d e ys : List Char)
    (ha : '\n' ∉ a) (hb : '\n' ∉ b) (hc : '\n' ∉ c) (hd : '\n' ∉ d) (he : '\n' ∉ e) :
    splitLinesL (a ++ (b ++ (c ++ (d ++ (e ++ '\n' :: '\n' :: ys)))))
      = (a ++ (b ++ (c ++ (d ++ e)))) :: [] :: splitLinesL ys := by
  rw [show a ++ (b ++ (c ++ (d ++ (e ++ '\n' :: '\n' :: ys))))
      = (a ++ (b ++ (c ++ (d ++ e)))) ++ '\n' :: '\n' :: ys by simp [List.append_assoc]]
  rw [splitLinesL_seg2 _ _
    (notMemAppend ha (notMemAppend hb (notMemAppend hc (notMemAppend hd he))))]

theorem spanTo_append (c : Char) (xs ys : List Char) (h : c ∉ xs) :
    spanTo c (xs ++ c :: ys) = some xs := by
  induction xs with
  | nil => simp [spanTo]
  | cons a rest ih =>
    rw [List.mem_cons, not_or] at h
    obtain ⟨h1, h2⟩ := h
    have ha : ¬ a = c := fun e => h1 e.symm
    simp [spanTo, ha, ih h2]

theorem jsTrimList_of_ends (a b : Char) (mid : List Char)
    (ha : isJsWs a = false) (hb : isJsWs b = false) :
    jsTrimList (a :: (mid ++ [b])) = a :: (mid ++ [b]) := by
  simp [jsTrimList, List.dropWhile_cons, ha, hb]

theorem fenceWrap_eq (cs : List Char) :
    fenceWrap cs = btChar :: btChar :: btChar :: '\n' :: (cs ++ fenceClose) := rfl

theorem fenceWrapJson_eq (cs : List Char) :
    fenceWrapJson cs =
      btChar :: btChar :: btChar :: 'j' :: 's' :: 'o' :: 'n' :: '\n' :: (cs ++ fenceClose) := rfl

theorem endsWithNlFence_append (cs : List Char) :
    endsWithNlFence (cs ++ fenceClose) = true := by
  unfold endsWithNlFence
  rw [List.reverse_append]
  rfl

theorem fenceTail_newline (cs : List Char) :
    fenceTail ('\n' :: (cs ++ fenceClose)) = some cs := by
  simp only [fenceTail, if_pos rfl, endsWithNlFence_append, if_true]
  rw [List.length_append, show fenceClose.length = 4 from rfl,
    show cs.length + 4 - 4 = cs.length by omega]
  rw [List.take_left]

theorem startsWithJsonCI_newline (l : List Char) : startsWithJsonCI ('\n' :: l) = false := by
  unfold startsWithJsonCI
  apply decide_eq_false
  intro h
  rw [List.take_succ_cons, List.map_cons] at h
  injection h with h1 _
  exact absurd h1 (by decide)

theorem codeBlockStrip_fenceWrap (cs : List Char) :
    codeBlockStrip (fenceWrap cs) = some cs := by
  rw [fenceWrap_eq]
  unfold codeBlockStrip
  have hc : List.take 3 (btChar :: btChar :: btChar :: '\n' :: (cs ++ fenceClose))
      = "```".toList := rfl
  rw [if_pos hc]
  simp only [List.drop_succ_cons, List.drop_zero, startsWithJsonCI_newline,
    Bool.false_eq_true, if_false]
  exact fenceTail_newline cs

theorem codeBlockStrip_fenceWrapJson (cs : List Char) :
    codeBlockStrip (fenceWrapJson cs) = some cs := by
  rw [fenceWrapJson_eq]
  unfold codeBlockStrip
  have hc : List.take 3 (btChar :: btChar :: btChar :: 'j' :: 's' :: 'o' :: 'n' :: '\n' ::
      (cs ++ fenceClose)) = "```".toList := rfl
  rw [if_pos hc]
  have hj : startsWithJsonCI (List.drop 3 (btChar :: btChar :: btChar :: 'j' :: 's' :: 'o' ::
      'n' :: '\n' :: (cs ++ fenceClose))) = true := rfl
  rw [if_pos hj]
  simp only [List.drop_succ_cons, List.drop_zero]
  rw [fenceTail_newline cs]

theorem jsTrimList_fenceWrap (cs : List Char) :
    jsTrimList (fenceWrap cs) = fenceWrap cs := by
  have h2 : fenceWrap cs
      = btChar :: ((btChar :: btChar :: '\n' :: (cs ++ "\n``".toList)) ++ [btChar]) := by
    rw [fenceWrap_eq]
    simp [fenceClose, List.append_assoc]
    rfl
  rw [h2, jsTrimList_of_ends btChar btChar _ (by decide) (by decide), ← h2]

theorem jsTrimList_fenceWrapJson (cs : List Char) :
    jsTrimList (fenceWrapJson cs) = fenceWrapJson cs := by
  have h2 : fenceWrapJson cs
      = btChar :: ((btChar :: btChar :: 'j' :: 's' :: 'o' :: 'n' :: '\n' ::
          (cs ++ "\n``".toList)) ++ [btChar]) := by
    rw [fenceWrapJson_eq]
    simp [fenceClose, List.append_assoc]
    rfl
  rw [h2, jsTrimList_of_ends btChar btChar _ (by decide) (by decide), ← h2]

theorem cleanRaw_fenceWrap (cs : List Char) : cleanRaw (fenceWrap cs) = jsTrimList cs := by
  unfold cleanRaw
  rw [jsTrimList_fenceWrap, codeBlockStrip_fenceWrap]

theorem cleanRaw_fenceWrapJson (cs : List Char) :
    cleanRaw (fenceWrapJson cs) = jsTrimList cs := by
  unfold cleanRaw
  rw [jsTrimList_fenceWrapJson, codeBlockStrip_fenceWrapJson]

theorem cleanRaw_of_strip_none (cs : List Char) (h : codeBlockStrip (jsTrimList cs) = none) :
    cleanRaw cs = jsTrimList cs := by
  unfold cleanRaw
  rw [h]

/-! ### Claim theorems -/

/-- C1, counterexample: the outline step accepts an empty array, and an
array whose descriptor has `pages = 0`, without any corrective follow-up
and without failing — contradicting the claim that `planOutline` never
returns an empty sequence or a descriptor with `pages <= 0`. -/
theorem c1_unvalidated_outline_counterexample :
    planOutlineRun [.ok "[]", .ok "x"] = .ok ([], [.ok "x"]) ∧
    planOutlineRun [.ok "[\x7b\"title\":\"A\",\"pages\":0\x7d]", .ok "x"]
      = .ok ([Json.obj [("title", Json.str "A"), ("pages", Json.num "0")]], [.ok "x"]) :=
  ⟨rfl, rfl⟩

/-- C1, amended: the outline step validates only `Array.isArray`.  It
fails with the planning error exactly when neither the first response nor
the single corrective follow-up extracts to a JSON array; when the first
extraction is an array it is returned verbatim with no follow-up issued,
and when only the follow-up extraction is an array that array is returned
verbatim — in both cases with no emptiness or page-count check. -/
theorem c1_planOutline_array_check_only (r1 r2 : String) :
    (planOutlineRun [.ok r1, .ok r2] = .error "Could not obtain valid TOC array from DeepSeek"
        ↔ isArrayResult (extractStructured r1.toList) = none
          ∧ isArrayResult (extractStructured r2.toList) = none)
    ∧ (∀ xs, isArrayResult (extractStructured r1.toList) = some xs →
        planOutlineRun [.ok r1, .ok r2] = .ok (xs, [.ok r2]))
    ∧ (∀ ys, isArrayResult (extractStructured r1.toList) = none →
        isArrayResult (extractStructured r2.toList) = some ys →
        planOutlineRun [.ok r1, .ok r2] = .ok (ys, [])) := by
  rcases h1 : isArrayResult (extractStructured r1.data) with _ | xs1 <;>
    rcases h2 : isArrayResult (extractStructured r2.data) with _ | ys2 <;>
      simp [planOutlineRun, takeCall, String.toList, h1, h2]

/-- C1, witness for the amended theorem at a concrete script. -/
theorem c1_planOutline_array_check_only_witness :
    planOutlineRun [.ok "prose", .ok "[1]"] = .ok ([Json.num "1"], []) :=
  (c1_planOutline_array_check_only "prose" "[1]").2.2 [Json.num "1"] rfl rfl

/-- C2, counterexample: on two JSON objects concatenated without a
separator the extractor does not join `}{` into `},{` and wrap in
brackets; it returns only the first braced span, parsed as a single
object, not the two-element array claimed. -/
theorem c2_concatenated_objects_counterexample :
    extractStructured "\x7b\"a\":1\x7d\x7b\"b\":2\x7d".toList
      = ExtractResult.json (Json.obj [("a", Json.num "1")]) := rfl

/-- C2, amended: when the cleaned text starts with a braced span whose
interior has no closing brace, the direct parse fails, and that first
span parses on its own, `extractStructured` returns the first span's
single object (so concatenated objects yield the first object, never a
joined array). -/
theorem c2_first_object_span (i1 rest2 : List Char) (v : Json)
    (hno : '}' ∉ i1)
    (hclean : cleanRaw ('{' :: (i1 ++ '}' :: rest2)) = '{' :: (i1 ++ '}' :: rest2))
    (hdirect : jsonParse ('{' :: (i1 ++ '}' :: rest2)) = none)
    (hspan : jsonParse ('{' :: (i1 ++ ['}'])) = some v) :
    extractStructured ('{' :: (i1 ++ '}' :: rest2)) = ExtractResult.json v := by
  unfold extractStructured parsePhase
  rw [hclean, hdirect]
  have hfs : firstSpan ('{' :: (i1 ++ '}' :: rest2)) = some ('{' :: (i1 ++ ['}'])) := by
    simp [firstSpan, spanTo_append '}' i1 rest2 hno]
  rw [hfs]
  simp [hspan]

/-- C2, witness for the amended theorem at the claim's own example. -/
theorem c2_first_object_span_witness :
    extractStructured ('{' :: ("\"a\":1".toList ++ '}' :: "\x7b\"b\":2\x7d".toList))
      = ExtractResult.json (Json.obj [("a", Json.num "1")]) :=
  c2_first_object_span "\"a\":1".toList "\x7b\"b\":2\x7d".toList
    (Json.obj [("a", Json.num "1")]) (by decide) rfl rfl rfl

/-- C3 (confirmed): the extractor is total by construction and every
result is either parsed JSON or the cleaned raw text as a string; in
particular, when the direct parse fails and the bracketed-span parse
fails (or no span exists), the cleaned raw text is returned. -/
theorem c3_extract_total_or_cleaned (cs : List Char) :
    ((∃ v, extractStructured cs = ExtractResult.json v) ∨
      extractStructured cs = ExtractResult.str (cleanRaw cs))
    ∧ ((jsonParse (cleanRaw cs) = none ∧
        (∀ span, firstSpan (cleanRaw cs) = some span → jsonParse span = none)) →
      extractStructured cs = ExtractResult.str (cleanRaw cs)) := by
  constructor
  · unfold extractStructured parsePhase
    split
    · exact Or.inl ⟨_, rfl⟩
    · split
      · split
        · exact Or.inl ⟨_, rfl⟩
        · exact Or.inr rfl
      · exact Or.inr rfl
  · rintro ⟨h1, h2⟩
    unfold extractStructured parsePhase
    rw [h1]
    rcases hs : firstSpan (cleanRaw cs) with _ | span
    · rfl
    · simp [hs, h2 span hs]

/-- C3, witness at a concrete unparseable input. -/
theorem c3_extract_total_or_cleaned_witness :
    extractStructured "hello world".toList
      = ExtractResult.str (cleanRaw "hello world".toList) :=
  (c3_extract_total_or_cleaned "hello world".toList).2
    ⟨rfl, fun span h => by
      rw [show firstSpan (cleanRaw "hello world".toList) = none from rfl] at h
      exact Option.noConfusion h⟩

/-- C4, counterexample: stripping is applied only once, so wrapping a
text that is itself a fenced block changes the result — the wrapped form
extracts to the inner fenced text as a string while the unwrapped form
extracts to the number `1`. -/
theorem c4_fence_strip_counterexample :
    extractStructured (fenceWrap "```\n1\n```".toList)
        = ExtractResult.str "```\n1\n```".toList ∧
    extractStructured "```\n1\n```".toList = ExtractResult.json (Json.num "1") :=
  ⟨rfl, rfl⟩

/-- C4, amended: for every raw text whose trimmed form is not itself a
fenced code block, extracting the text wrapped in a fenced block
(untagged or `json`-tagged) yields the same result as extracting the
text itself. -/
theorem c4_fence_strip_invariant (cs : List Char)
    (h : codeBlockStrip (jsTrimList cs) = none) :
    extractStructured (fenceWrap cs) = extractStructured cs ∧
    extractStructured (fenceWrapJson cs) = extractStructured cs := by
  unfold extractStructured
  rw [cleanRaw_fenceWrap, cleanRaw_fenceWrapJson, cleanRaw_of_strip_none cs h]
  exact ⟨rfl, rfl⟩

/-- C4, witness for the amended theorem at a concrete JSON text. -/
theorem c4_fence_strip_invariant_witness :
    codeBlockStrip (jsTrimList "\x7b\"a\":1\x7d".toList) = none ∧
    extractStructured (fenceWrap "\x7b\"a\":1\x7d".toList) = extractStructured "\x7b\"a\":1\x7d".toList :=
  ⟨rfl, (c4_fence_strip_invariant "\x7b\"a\":1\x7d".toList rfl).1⟩

/-- Invariants of the retry loop, proved for every suffix of the attempt
range: at most `remaining` further attempts, backoff delays
`1000 * 2 ^ (attempt - 1)` between consecutive attempts, a success comes
from the last attempt made, exhaustion yields the fixed message, and the
loop never falls through while attempts remain. -/
theorem retryGo_spec (N : Nat) (outcome : Nat → Except String Json) :
    ∀ remaining attempt, 1 ≤ attempt → attempt + remaining = N + 1 → 1 ≤ remaining →
      1 ≤ (retryGo N outcome attempt remaining).1 ∧
      (retryGo N outcome attempt remaining).1 ≤ remaining ∧
      (retryGo N outcome attempt remaining).2.1
        = (List.range ((retryGo N outcome attempt remaining).1 - 1)).map
            (fun k => 1000 * 2 ^ (attempt - 1 + k)) ∧
      (∀ v, (retryGo N outcome attempt remaining).2.2 = RetryResult.success v →
        outcome (attempt + (retryGo N outcome attempt remaining).1 - 1) = Except.ok v) ∧
      ((∀ k, attempt ≤ k → k ≤ N → ∀ v, outcome k ≠ Except.ok v) →
        (retryGo N outcome attempt remaining).2.2
          = RetryResult.failure ("DeepSeek did not return valid JSON after "
              ++ toString N ++ " tries")) ∧
      (retryGo N outcome attempt remaining).2.2 ≠ RetryResult.noResult := by
  intro remaining
  induction remaining with
  | zero => exact fun attempt _ _ h3 => absurd h3 (by omega)
  | succ rem ih =>
    intro attempt h1 h2 _
    cases ho : outcome attempt with
    | ok v =>
      simp only [retryGo, ho]
      refine ⟨le_refl 1, by omega, by simp, ?_, ?_, by simp⟩
      · intro w hw
        injection hw with hw'
        subst hw'
        rw [show attempt + 1 - 1 = attempt by omega]
        exact ho
      · intro hall
        exact absurd ho (hall attempt (by omega) (by omega) v)
    | error e =>
      by_cases ha : attempt = N
      · subst ha
        have hr : retryGo attempt outcome attempt (rem + 1)
            = (1, [], RetryResult.failure ("DeepSeek did not return valid JSON after "
                ++ toString attempt ++ " tries")) := by
          simp [retryGo, ho]
        rw [hr]
        refine ⟨le_refl 1, by omega, by simp, ?_, ?_, by simp⟩
        · intro w hw
          exact absurd hw (by simp)
        · intro _
          rfl
      · have hrem : 1 ≤ rem := by omega
        obtain ⟨ih1, ih2, ih3, ih4, ih5, ih6⟩ := ih (attempt + 1) (by omega) (by omega) hrem
        simp only [retryGo, ho, if_neg ha]
        refine ⟨by omega, by omega, ?_, ?_, ?_, ih6⟩
        · rw [ih3]
          obtain ⟨m, hm⟩ : ∃ m, (retryGo N outcome (attempt + 1) rem).1 = m + 1 :=
            ⟨(retryGo N outcome (attempt + 1) rem).1 - 1, by omega⟩
          rw [hm]
          simp only [Nat.add_sub_cancel, List.range_succ_eq_map, List.map_cons, List.map_map]
          congr 1
          apply List.map_congr_left
          intro a _
          simp only [Function.comp_apply, Nat.succ_eq_add_one]
          have harith : attempt + a = attempt - 1 + (a + 1) := by omega
          rw [harith]
        · intro v hv
          have h := ih4 v hv
          rwa [show attempt + ((retryGo N outcome (attempt + 1) rem).1 + 1) - 1
              = attempt + 1 + (retryGo N outcome (attempt + 1) rem).1 - 1 by omega]
        · intro hall
          exact ih5 fun k hk1 hk2 => hall k (by omega) hk2

/-- C5, counterexample: after exhausting all attempts the thrown error is
a fixed message that does not carry the last underlying cause — two runs
whose attempts fail with different causes produce identical results. -/
theorem c5_exhaustion_drops_cause_counterexample :
    askDeepSeekRetry 3 (fun _ => .error "socket hang up")
      = askDeepSeekRetry 3 (fun _ => .error "HTTP 500 from backend") ∧
    askDeepSeekRetry 3 (fun _ => .error "socket hang up")
      = (3, [1000, 2000],
          RetryResult.failure "DeepSeek did not return valid JSON after 3 tries") :=
  ⟨rfl, rfl⟩

/-- C5, amended: the Completion Client makes at most `N` attempts
(`N` configurable), the delay between attempt `k` and `k + 1` is
`1000 * 2 ^ (k - 1)` milliseconds, a success is the parsed value of the
last attempt made, and when every attempt fails the call throws an error
whose fixed message names the attempt count (but not the last underlying
cause) — the caller never silently receives partial or garbage text. -/
theorem c5_retry_policy (N : Nat) (outcome : Nat → Except String Json) (hN : 1 ≤ N) :
    (askDeepSeekRetry N outcome).1 ≤ N ∧
    (askDeepSeekRetry N outcome).2.1
      = (List.range ((askDeepSeekRetry N outcome).1 - 1)).map (fun k => 1000 * 2 ^ k) ∧
    (∀ v, (askDeepSeekRetry N outcome).2.2 = RetryResult.success v →
      outcome (askDeepSeekRetry N outcome).1 = Except.ok v) ∧
    ((∀ k, 1 ≤ k → k ≤ N → ∀ v, outcome k ≠ Except.ok v) →
      (askDeepSeekRetry N outcome).2.2
        = RetryResult.failure ("DeepSeek did not return valid JSON after "
            ++ toString N ++ " tries")) ∧
    (askDeepSeekRetry N outcome).2.2 ≠ RetryResult.noResult := by
  obtain ⟨h1, h2, h3, h4, h5, h6⟩ := retryGo_spec N outcome N 1 (le_refl 1) (by omega) hN
  unfold askDeepSeekRetry
  refine ⟨h2, ?_, ?_, h5, h6⟩
  · rw [h3]
    apply List.map_congr_left
    intro k _
    norm_num
  · intro v hv
    have h := h4 v hv
    rwa [show 1 + (retryGo N outcome 1 N).1 - 1 = (retryGo N outcome 1 N).1 by omega] at h

/-- C5, witness for the amended theorem: two attempts that both fail
produce the fixed exhaustion error. -/
theorem c5_retry_policy_witness :
    (askDeepSeekRetry 2 (fun _ => Except.error "timeout")).2.2
      = RetryResult.failure "DeepSeek did not return valid JSON after 2 tries" :=
  (c5_retry_policy 2 (fun _ => Except.error "timeout") (by omega)).2.2.2.1
    fun _ _ _ _ h => Except.noConfusion h

/-- C6 (confirmed): whenever a run fails — in particular when a backend
call fails during chapter expansion or any earlier stage — the document
store keeps its prior value; the store is written only by a successful
run's final persistence step. -/
theorem c6_no_partial_persistence (kw : String) (tp : Int) (script : List BackendResp)
    (st0 : Option String) (e : String)
    (h : (generateBookRun kw tp script st0).2 = .error e) :
    (generateBookRun kw tp script st0).1 = st0 := by
  unfold generateBookRun at h ⊢
  cases hp : planOutlineRun script with
  | error e2 => simp [hp]
  | ok pr =>
    obtain ⟨toc, rest⟩ := pr
    simp only [hp] at h ⊢
    unfold buildBook at h ⊢
    cases hs : buildSkeleton kw toc with
    | error e3 => simp [hs]
    | ok skel =>
      simp only [hs] at h ⊢
      cases hl : chapterLoop toc rest skel with
      | error e4 => simp [hl]
      | ok pr2 =>
        obtain ⟨doc, r⟩ := pr2
        simp only [hl] at h
        exact absurd h (by simp)

/-- C6, witness: the backend failing on the first chapter call aborts the
run and leaves the previously stored document untouched. -/
theorem c6_no_partial_persistence_witness :
    (generateBookRun "Graph Theory" 10
        [.ok "[\x7b\"title\":\"A\",\"pages\":5\x7d]", .error "socket hang up"] (some "prior")).2
      = .error "socket hang up" ∧
    (generateBookRun "Graph Theory" 10
        [.ok "[\x7b\"title\":\"A\",\"pages\":5\x7d]", .error "socket hang up"] (some "prior")).1
      = some "prior" :=
  ⟨rfl, c6_no_partial_persistence _ _ _ _ _ rfl⟩

/-- C7 (confirmed): the chapter-expansion token budget is monotonically
non-decreasing in the descriptor's page count and always lies within the
backend's accepted range `[1, 8000]`. -/
theorem c7_token_budget_clamped_monotone (p q : Int) (h : p ≤ q) :
    expandChapterTokens p ≤ expandChapterTokens q ∧
    1 ≤ expandChapterTokens p ∧ expandChapterTokens p ≤ 8000 := by
  unfold expandChapterTokens clampTokens
  refine ⟨?_, le_max_left _ _, ?_⟩
  · exact max_le_max (le_refl 1) (min_le_min (by linarith) (le_refl 8000))
  · exact max_le (by norm_num) (min_le_right _ _)

/-- C7, witness at concrete page counts. -/
theorem c7_token_budget_clamped_monotone_witness :
    expandChapterTokens 5 ≤ expandChapterTokens 120 ∧
    1 ≤ expandChapterTokens 5 ∧ expandChapterTokens 5 ≤ 8000 :=
  c7_token_budget_clamped_monotone 5 120 (by norm_num)

/-- The chapter loop's output markdown is the accumulator followed by the
rendering of exactly the per-chapter data the loop gathered. -/
theorem chapterLoop_eq_collect (toc : List Json) (script : List BackendResp) (acc : String) :
    chapterLoop toc script acc
      = match collectChapterData toc script with
        | .error e => .error e
        | .ok (ds, rest) => .ok (acc ++ renderChapterBlocks ds, rest) := by
  induction toc generalizing script acc with
  | nil => simp [chapterLoop, collectChapterData, renderChapterBlocks]
  | cons ch chs ih =>
    simp only [chapterLoop, collectChapterData]
    cases hcd : chapterData ch script with
    | error e => rfl
    | ok pr =>
      obtain ⟨d, rest⟩ := pr
      dsimp only
      rw [ih]
      cases hc : collectChapterData chs rest with
      | error e => rfl
      | ok pr2 =>
        obtain ⟨ds, rest2⟩ := pr2
        simp [renderChapterBlocks, String.append_assoc]

/-- C8 (confirmed): the Document Assembler is deterministic — two runs
with the same topic, the same ordered chapter sequence and the same
gathered chapter data (descriptions and expanded texts) produce
byte-identical markdown, whatever the raw response scripts and prior
store contents were. -/
theorem c8_assembler_deterministic (kw : String) (toc : List Json)
    (s1 s2 : List BackendResp) (st1 st2 : Option String)
    (data : List (Option Json × ExtractResult × ExtractResult))
    (r1 r2 : List BackendResp)
    (h1 : collectChapterData toc s1 = .ok (data, r1))
    (h2 : collectChapterData toc s2 = .ok (data, r2)) :
    (buildBook kw toc s1 st1).2 = (buildBook kw toc s2 st2).2 := by
  unfold buildBook
  cases hs : buildSkeleton kw toc with
  | error e => simp [hs]
  | ok skel =>
    simp only [hs]
    rw [chapterLoop_eq_collect, chapterLoop_eq_collect, h1, h2]

/-- C8, witness: raw chapter responses differing only by a code fence
extract to the same data and yield byte-identical documents. -/
theorem c8_assembler_deterministic_witness :
    collectChapterData
        [Json.obj [("title", Json.str "T"), ("description", Json.str "D"),
          ("pages", Json.num "3")]] [.ok "Body"]
      = .ok ([(some (Json.str "T"), ExtractResult.json (Json.str "D"),
          ExtractResult.str "Body".toList)], []) ∧
    collectChapterData
        [Json.obj [("title", Json.str "T"), ("description", Json.str "D"),
          ("pages", Json.num "3")]] [.ok "```\nBody\n```"]
      = .ok ([(some (Json.str "T"), ExtractResult.json (Json.str "D"),
          ExtractResult.str "Body".toList)], []) ∧
    (buildBook "T0"
        [Json.obj [("title", Json.str "T"), ("description", Json.str "D"),
          ("pages", Json.num "3")]] [.ok "Body"] none).2
      = (buildBook "T0"
        [Json.obj [("title", Json.str "T"), ("description", Json.str "D"),
          ("pages", Json.num "3")]] [.ok "```\nBody\n```"] (some "other")).2 :=
  ⟨rfl, rfl, c8_assembler_deterministic _ _ _ _ _ _ _ _ _ rfl rfl⟩

/-- C10 (confirmed): with the topic parameter absent the run uses the
default topic, with the pages parameter absent or unparseable the run
uses the default budget 120, and in every case the handler starts a run
with the resolved values rather than rejecting the request. -/
theorem c10_generate_defaults :
    effectiveKeywords none = "Artificial Intelligence" ∧
    effectiveTotalPages none = 120 ∧
    (∀ s, jsParseInt s = none → effectiveTotalPages (some s) = 120) ∧
    (∀ qk qp script st0, generateHandler qk qp script st0
        = generateBookRun (effectiveKeywords qk) (effectiveTotalPages qp) script st0) := by
  refine ⟨rfl, rfl, ?_, fun qk qp script st0 => rfl⟩
  intro s hs
  simp [effectiveTotalPages, hs]

/-- C10, witness: an unparseable pages parameter falls back to 120. -/
theorem c10_generate_defaults_witness : effectiveTotalPages (some "abc") = 120 :=
  c10_generate_defaults.2.2.1 "abc" rfl

/-- C9, counterexample: for an outline of exactly two chapters whose
first title contains a newline, the assembled document's table of
contents has 3 lines, not 2 — the unrestricted claim fails. -/
theorem c9_toc_lines_counterexample :
    ((buildBook "T"
        [chDescriptor "A\nB" "d" "1", chDescriptor "C" "d" "1"]
        [.ok "x", .ok "y"] none).2).map (fun d => (tocSectionLines d).length)
      = .ok 3 := rfl

/-- C9, amended: for an outline of exactly two chapters whose titles,
descriptions and page renderings are single-line, whose descriptions are
non-empty, with a single-line topic distinct from both titles, and whose
expanded texts contain no line equal to a chapter-heading line, the
assembled document's table of contents consists of exactly the two lines
`<index>. <title> (<pages> pp.)` (1-indexed, in planner order) and
exactly 2 level-1 heading lines match the chapter titles. -/
theorem c9_two_chapter_document (kw t1 t2 d1 d2 p1 p2 b1 b2 : String)
    (hkw : '\n' ∉ kw.toList)
    (ht1 : '\n' ∉ t1.toList) (ht2 : '\n' ∉ t2.toList)
    (hd1n : '\n' ∉ d1.toList) (hd2n : '\n' ∉ d2.toList)
    (hp1 : '\n' ∉ p1.toList) (hp2 : '\n' ∉ p2.toList)
    (hd1 : ¬ d1 = "") (hd2 : ¬ d2 = "")
    (hkt1 : kw.toList ≠ t1.toList) (hkt2 : kw.toList ≠ t2.toList)
    (hx1 : ∀ l ∈ splitLinesL (renderExtract (extractStructured b1.toList)).toList,
      l ≠ '#' :: ' ' :: t1.toList ∧ l ≠ '#' :: ' ' :: t2.toList)
    (hx2 : ∀ l ∈ splitLinesL (renderExtract (extractStructured b2.toList)).toList,
      l ≠ '#' :: ' ' :: t1.toList ∧ l ≠ '#' :: ' ' :: t2.toList) :
    ∃ doc,
      (buildBook kw [chDescriptor t1 d1 p1, chDescriptor t2 d2 p2]
          [.ok b1, .ok b2] none).2 = .ok doc ∧
      tocSectionLines doc
        = ["1. ".toList ++ (t1.toList ++ (" (".toList ++ (p1.toList ++ " pp.)".toList))),
           "2. ".toList ++ (t2.toList ++ (" (".toList ++ (p2.toList ++ " pp.)".toList)))] ∧
      headingCount doc [t1.toList, t2.toList] = 2 := by
  have hcd1 : chapterData (chDescriptor t1 d1 p1) [.ok b1, .ok b2]
      = .ok ((some (Json.str t1), ExtractResult.json (Json.str d1),
          extractStructured b1.toList), [.ok b2]) := by
    simp [chapterData, chDescriptor, jsGetField, lookupLast, jsFalsyOpt, jsFalsy, hd1, takeCall]
  have hcd2 : chapterData (chDescriptor t2 d2 p2) [.ok b2]
      = .ok ((some (Json.str t2), ExtractResult.json (Json.str d2),
          extractStructured b2.toList), []) := by
    simp [chapterData, chDescriptor, jsGetField, lookupLast, jsFalsyOpt, jsFalsy, hd2, takeCall]
  have hcol : collectChapterData [chDescriptor t1 d1 p1, chDescriptor t2 d2 p2] [.ok b1, .ok b2]
      = .ok ([(some (Json.str t1), ExtractResult.json (Json.str d1),
            extractStructured b1.toList),
          (some (Json.str t2), ExtractResult.json (Json.str d2),
            extractStructured b2.toList)], []) := by
    simp [collectChapterData, hcd1, hcd2]
  have hskel : buildSkeleton kw [chDescriptor t1 d1 p1, chDescriptor t2 d2 p2]
      = .ok ("# " ++ (kw ++ ("\n\nGenerated automatically with DeepSeek.\n\n## Table of Contents\n\n"
        ++ ("1. " ++ (t1 ++ (" (" ++ (p1 ++ (" pp.)\n"
        ++ ("2. " ++ (t2 ++ (" (" ++ (p2 ++ (" pp.)\n" ++ "\n---\n\n"))))))))))))) := by
    simp [buildSkeleton, tocLines, tocLine, chDescriptor, jsGetField, lookupLast, renderOpt,
      jsDisplay, String.append_assoc, String.append_empty,
      show toString (0 + 1) = "1" from rfl, show toString (1 + 1) = "2" from rfl]
  have hloop : chapterLoop [chDescriptor t1 d1 p1, chDescriptor t2 d2 p2] [.ok b1, .ok b2]
      ("# " ++ (kw ++ ("\n\nGenerated automatically with DeepSeek.\n\n## Table of Contents\n\n"
        ++ ("1. " ++ (t1 ++ (" (" ++ (p1 ++ (" pp.)\n"
        ++ ("2. " ++ (t2 ++ (" (" ++ (p2 ++ (" pp.)\n" ++ "\n---\n\n")))))))))))))
      = .ok (("# " ++ (kw ++ ("\n\nGenerated automatically with DeepSeek.\n\n## Table of Contents\n\n"
          ++ ("1. " ++ (t1 ++ (" (" ++ (p1 ++ (" pp.)\n"
          ++ ("2. " ++ (t2 ++ (" (" ++ (p2 ++ (" pp.)\n" ++ "\n---\n\n")))))))))))))
        ++ renderChapterBlocks
          [(some (Json.str t1), ExtractResult.json (Json.str d1),
            extractStructured b1.toList),
           (some (Json.str t2), ExtractResult.json (Json.str d2),
            extractStructured b2.toList)], []) := by
    rw [chapterLoop_eq_collect, hcol]
  have hrun : (buildBook kw [chDescriptor t1 d1 p1, chDescriptor t2 d2 p2]
      [.ok b1, .ok b2] none).2
      = .ok (("# " ++ (kw ++ ("\n\nGenerated automatically with DeepSeek.\n\n## Table of Contents\n\n"
          ++ ("1. " ++ (t1 ++ (" (" ++ (p1 ++ (" pp.)\n"
          ++ ("2. " ++ (t2 ++ (" (" ++ (p2 ++ (" pp.)\n" ++ "\n---\n\n")))))))))))))
        ++ renderChapterBlocks
          [(some (Json.str t1), ExtractResult.json (Json.str d1),
            extractStructured b1.toList),
           (some (Json.str t2), ExtractResult.json (Json.str d2),
            extractStructured b2.toList)]) := by
    unfold buildBook
    simp only [hskel, hloop]
  have hshape : (("# " ++ (kw ++ ("\n\nGenerated automatically with DeepSeek.\n\n## Table of Contents\n\n"
        ++ ("1. " ++ (t1 ++ (" (" ++ (p1 ++ (" pp.)\n"
        ++ ("2. " ++ (t2 ++ (" (" ++ (p2 ++ (" pp.)\n" ++ "\n---\n\n")))))))))))))
      ++ renderChapterBlocks
        [(some (Json.str t1), ExtractResult.json (Json.str d1), extractStructured b1.toList),
         (some (Json.str t2), ExtractResult.json (Json.str d2), extractStructured b2.toList)]).toList
      = ("# ".toList ++ (kw.toList ++ '\n' :: '\n' :: ("Generated automatically with DeepSeek.".toList ++ '\n' :: '\n' :: ("## Table of Contents".toList ++ '\n' :: '\n' :: ("1. ".toList ++ (t1.toList ++ (" (".toList ++ (p1.toList ++ (" pp.)".toList ++ '\n' :: ("2. ".toList ++ (t2.toList ++ (" (".toList ++ (p2.toList ++ (" pp.)".toList ++ '\n' :: '\n' :: ("---".toList ++ '\n' :: '\n' :: ("# ".toList ++ (t1.toList ++ '\n' :: '\n' :: ("> ".toList ++ (d1.toList ++ '\n' :: '\n' :: ((renderExtract (extractStructured b1.toList)).toList ++ '\n' :: '\n' :: ("---".toList ++ '\n' :: '\n' :: ("# ".toList ++ (t2.toList ++ '\n' :: '\n' :: ("> ".toList ++ (d2.toList ++ '\n' :: '\n' :: ((renderExtract (extractStructured b2.toList)).toList ++ '\n' :: '\n' :: ("---".toList ++ '\n' :: '\n' :: []))))))))))))))))))))))))))) := by
    simp only [String.toList, String.data_append, List.append_assoc, List.cons_append,
      List.nil_append, renderChapterBlocks, chapterBlock, String.append_empty,
      show renderOpt (some (Json.str t1)) = t1 from rfl,
      show renderOpt (some (Json.str t2)) = t2 from rfl,
      show renderExtract (ExtractResult.json (Json.str d1)) = d1 from rfl,
      show renderExtract (ExtractResult.json (Json.str d2)) = d2 from rfl]
  have hlines : splitLinesL ((("# " ++ (kw ++ ("\n\nGenerated automatically with DeepSeek.\n\n## Table of Contents\n\n"
        ++ ("1. " ++ (t1 ++ (" (" ++ (p1 ++ (" pp.)\n"
        ++ ("2. " ++ (t2 ++ (" (" ++ (p2 ++ (" pp.)\n" ++ "\n---\n\n")))))))))))))
      ++ renderChapterBlocks
        [(some (Json.str t1), ExtractResult.json (Json.str d1), extractStructured b1.toList),
         (some (Json.str t2), ExtractResult.json (Json.str d2), extractStructured b2.toList)]).toList)
      = ("# ".toList ++ kw.toList) :: [] ::
        "Generated automatically with DeepSeek.".toList :: [] ::
        "## Table of Contents".toList :: [] ::
        ("1. ".toList ++ (t1.toList ++ (" (".toList ++ (p1.toList ++ " pp.)".toList)))) ::
        ("2. ".toList ++ (t2.toList ++ (" (".toList ++ (p2.toList ++ " pp.)".toList)))) :: [] ::
        "---".toList :: [] ::
        ("# ".toList ++ t1.toList) :: [] ::
        ("> ".toList ++ d1.toList) :: [] ::
        (splitLinesL (renderExtract (extractStructured b1.toList)).toList ++ [] ::
        "---".toList :: [] ::
        ("# ".toList ++ t2.toList) :: [] ::
        ("> ".toList ++ d2.toList) :: [] ::
        (splitLinesL (renderExtract (extractStructured b2.toList)).toList ++ [] ::
        "---".toList :: [] :: [[]])) := by
    rw [hshape]
    rw [splitLinesL_seg_two _ _ _ (by decide) hkw,
        splitLinesL_seg2 _ _ (by decide),
        splitLinesL_seg2 _ _ (by decide),
        splitLinesL_seg_five1 _ _ _ _ _ _ (by decide) ht1 (by decide) hp1 (by decide),
        splitLinesL_seg_five2 _ _ _ _ _ _ (by decide) ht2 (by decide) hp2 (by decide),
        splitLinesL_seg2 _ _ (by decide),
        splitLinesL_seg_two _ _ _ (by decide) ht1,
        splitLinesL_seg_two _ _ _ (by decide) hd1n,
        splitLinesL_double,
        splitLinesL_seg2 _ _ (by decide),
        splitLinesL_seg_two _ _ _ (by decide) ht2,
        splitLinesL_seg_two _ _ _ (by decide) hd2n,
        splitLinesL_double,
        splitLinesL_seg2 _ _ (by decide)]
    rfl
  refine ⟨_, hrun, ?_, ?_⟩
  · unfold tocSectionLines
    rw [hlines]
    rfl
  · unfold headingCount
    rw [hlines]
    have hkt1d : ¬ kw.data = t1.data := hkt1
    have hkt2d : ¬ kw.data = t2.data := hkt2
    have px1 : List.filter (fun l => l == '#' :: ' ' :: t1.data || l == '#' :: ' ' :: t2.data)
        (splitLinesL (renderExtract (extractStructured b1.data)).data) = [] := by
      rw [List.filter_eq_nil_iff]
      intro l hl
      obtain ⟨n1, n2⟩ := hx1 l hl
      simp only [Bool.or_eq_true, beq_iff_eq, not_or]
      exact ⟨n1, n2⟩
    have px2 : List.filter (fun l => l == '#' :: ' ' :: t1.data || l == '#' :: ' ' :: t2.data)
        (splitLinesL (renderExtract (extractStructured b2.data)).data) = [] := by
      rw [List.filter_eq_nil_iff]
      intro l hl
      obtain ⟨n1, n2⟩ := hx2 l hl
      simp only [Bool.or_eq_true, beq_iff_eq, not_or]
      exact ⟨n1, n2⟩
    simp [List.filter_cons, List.filter_append, hkt1d, hkt2d, px1, px2]

/-- C9, witness for the amended theorem at scenario A's outline. -/
theorem c9_two_chapter_document_witness :
    ∃ doc,
      (buildBook "Graph Theory"
          [chDescriptor "Chapter 1: Introduction" "D1." "5",
           chDescriptor "Chapter 2: Trees" "D2." "5"]
          [.ok "Body one.", .ok "Body two."] none).2 = .ok doc ∧
      tocSectionLines doc
        = ["1. ".toList ++ ("Chapter 1: Introduction".toList ++ (" (".toList
            ++ ("5".toList ++ " pp.)".toList))),
           "2. ".toList ++ ("Chapter 2: Trees".toList ++ (" (".toList
            ++ ("5".toList ++ " pp.)".toList)))] ∧
      headingCount doc ["Chapter 1: Introduction".toList, "Chapter 2: Trees".toList] = 2 :=
  c9_two_chapter_document "Graph Theory" "Chapter 1: Introduction" "Chapter 2: Trees"
    "D1." "D2." "5" "5" "Body one." "Body two."
    (by decide) (by decide) (by decide) (by decide) (by decide) (by decide) (by decide)
    (by decide) (by decide) (by decide) (by decide) (by decide) (by decide)

end DeepSeekGen
